import Mathlib

/-!
Verification of the Candidate Evaluation & Promotion Engine of the RL_LLM
repository (`RL/agent_manager.py`, `config/config_manager.py`,
`validation/test_runner.py`, `validation/param_validation.py`,
`validation/agent_validation.py`).

Modelling conventions:
* Python floats are modelled as rationals (`ℚ`); every numeric literal of the
  source (0.1, 0.05, -999.0, ...) is translated to the exact rational it
  denotes in the source text.
* Python string operations (`str.split`, `str.startswith`, `str.strip`) are
  re-implemented over `List Char` by structural recursion so that concrete
  runs reduce inside the kernel.
* Effects (subprocess execution, the file system, dynamic module loading) are
  modelled by passing their outcomes explicitly: a candidate evaluation is an
  `Option Metrics` (`none` = the Python `try` block raised), the scratch
  directory is a list of file names, the live agent file is an
  `Option String` of its content.
-/

/-! ### Python string primitives, re-implemented structurally -/

/-- If `sep` is an initial segment of `s`, return the remainder of `s`. -/
def matchSep : List Char → List Char → Option (List Char)
  | [], s => some s
  | _ :: _, [] => none
  | p :: ps, c :: cs => if c = p then matchSep ps cs else none

/-- Fuelled splitter: Python `s.split(sep)` for a non-empty `sep`
(left-to-right, non-overlapping occurrences). -/
def splitSeqF (sep : List Char) : Nat → List Char → List (List Char)
  | 0, s => [s]
  | _ + 1, [] => [[]]
  | fuel + 1, c :: cs =>
    match matchSep sep (c :: cs) with
    | some rest => [] :: splitSeqF sep fuel rest
    | none =>
      match splitSeqF sep fuel cs with
      | [] => [[c]]
      | h :: t => (c :: h) :: t

/-- Python `s.split(sep)`. -/
def pySplit (sep s : String) : List String :=
  (splitSeqF sep.data (s.data.length + 1) s.data).map List.asString

/-- Python `s.startswith(p)`. -/
def pyStartsWith (p s : String) : Bool :=
  (matchSep p.data s.data).isSome

/-- Python `s.endswith(p)`. -/
def pyEndsWith (p s : String) : Bool :=
  (matchSep p.data.reverse s.data.reverse).isSome

/-- Whitespace recognised by Python `str.strip()` (the cases that matter
for `float()` input). -/
def isPySpace (c : Char) : Bool :=
  c = ' ' || c = '\t' || c = '\n' || c = '\r'

/-- Python `s.strip()`. -/
def pyStrip (s : String) : String :=
  List.asString (((s.data.dropWhile isPySpace).reverse.dropWhile isPySpace).reverse)

/-! ### A model of Python `float()` on decimal literals

`float()` is a Python builtin; the model covers the decimal forms the Result
Protocol traffics in: an optional sign, then digits with an optional decimal
point (`"5"`, `"5."`, `".5"`, `"-999.000"`).  The parse result is kept in
discrete form (sign, integer part, fraction digits, fraction length) so that
parsing reduces by `decide`; `ratOfParts` converts to the rational value. -/

/-- The digits of a numeral as a natural number; `none` when some character
is not a digit.  An empty digit string yields `some 0` (callers rule the
all-empty case out separately, as Python `float` does). -/
def natOfDigits : List Char → Option Nat
  | [] => some 0
  | c :: cs =>
    if c.isDigit then
      (natOfDigits cs).map (fun n => n + (c.toNat - 48) * 10 ^ cs.length)
    else none

/-- Discrete parse of an unsigned decimal literal: integer part, fraction
numerator, number of fraction digits. -/
def floatPartsUnsigned (t : String) : Option (Nat × Nat × Nat) :=
  match pySplit "." t with
  | [ip] =>
    if ip.data = [] then none
    else (natOfDigits ip.data).map (fun n => (n, 0, 0))
  | [ip, fp] =>
    if ip.data = [] && fp.data = [] then none
    else
      match natOfDigits ip.data, natOfDigits fp.data with
      | some n, some f => some (n, f, fp.data.length)
      | _, _ => none
  | _ => none

/-- Discrete parse of a signed decimal literal after stripping, Python
`float()` style: `(negative?, integer part, fraction numerator, fraction
length)`. -/
def floatParts (s : String) : Option (Bool × Nat × Nat × Nat) :=
  let t := pyStrip s
  match t.data with
  | '-' :: rest => (floatPartsUnsigned (List.asString rest)).map (fun p => (true, p))
  | '+' :: rest => (floatPartsUnsigned (List.asString rest)).map (fun p => (false, p))
  | _ => (floatPartsUnsigned t).map (fun p => (false, p))

/-- The rational value of a discrete float parse. -/
def ratOfParts : Bool × Nat × Nat × Nat → ℚ
  | (neg, ip, f, k) =>
    (if neg then -1 else 1) * ((ip : ℚ) + (f : ℚ) / 10 ^ k)

/-! ### `_parse_test_output` (validation/test_runner.py)

Source loop state: `avg_return` starts at `-999.0`, `success_rate` at `0.0`;
for each line starting with `RESULTS:` the code computes
`parts = line.split('RESULTS: ')[1].split(', ')`, assigns
`avg_return = float(parts[0].split('=')[1])` and then
`success_rate = float(parts[1].split('=')[1])` and breaks; `IndexError` /
`ValueError` anywhere in that sequence is swallowed and the loop continues.
Because `avg_return` is assigned *before* `success_rate` is parsed, a line
whose first field parses but whose second does not leaves `avg_return`
overwritten.  `lineAvgParts` models the computation up to the first
assignment, `lineSrParts` the rest of it. -/

/-- The discrete parse of the `avg_return` field of one line, `none` when the
source's `try` block fails before the first assignment. -/
def lineAvgParts (line : String) : Option (Bool × Nat × Nat × Nat) :=
  if pyStartsWith "RESULTS:" line then
    ((pySplit "RESULTS: " line)[1]?).bind fun payload =>
      ((pySplit ", " payload)[0]?).bind fun p0 =>
        ((pySplit "=" p0)[1]?).bind floatParts
  else none

/-- The discrete parse of the `success_rate` field of one line (only reached
by the source after the `avg_return` assignment succeeded). -/
def lineSrParts (line : String) : Option (Bool × Nat × Nat × Nat) :=
  if pyStartsWith "RESULTS:" line then
    ((pySplit "RESULTS: " line)[1]?).bind fun payload =>
      ((pySplit ", " payload)[1]?).bind fun p1 =>
        ((pySplit "=" p1)[1]?).bind floatParts
  else none

/-- The loop of `_parse_test_output` in discrete form.  First component: the
last successful `avg_return` assignment (partial parses included); second:
the fields of the first fully parsed line, at which the source breaks. -/
def parseScan : List String → Option (Bool × Nat × Nat × Nat) →
    Option (Bool × Nat × Nat × Nat) × Option (Bool × Nat × Nat × Nat)
  | [], acc => (acc, none)
  | l :: ls, acc =>
    match lineAvgParts l with
    | none => parseScan ls acc
    | some a =>
      match lineSrParts l with
      | none => parseScan ls (some a)
      | some r => (some a, some r)

/-- `_parse_test_output(stdout)`: `(avg_return, success_rate)`. -/
def parseTestOutput (stdout : String) : ℚ × ℚ :=
  let scan := parseScan (pySplit "\n" stdout) none
  (match scan.1 with
   | none => -999
   | some p => ratOfParts p,
   match scan.2 with
   | none => 0
   | some p => ratOfParts p)

/-! ### `_execute_test_script` (validation/test_runner.py) -/

/-- Metrics dictionary returned by the test infrastructure. -/
structure Metrics where
  avg_return : ℚ
  success_rate : ℚ
  test_name : String
deriving DecidableEq

/-- Outcome of the `subprocess.run` call on the generated script. -/
inductive ProcOutcome where
  | completed (stdout : String) (exitCode : Int)
  | timedOut
  | raised (msg : String)

/-- What `_execute_test_script` produces: the returned metrics dict, the
lines it printed, and whether the `finally` block deleted the temp file. -/
structure ExecOutcome where
  result : Metrics
  log : List String
  tempFileDeleted : Bool

/-- `_execute_test_script(test_script, test_name)`: the temp file is written,
the subprocess runs, and the `finally` block unlinks the temp file on every
path.  On `TimeoutExpired` or any other exception the sentinel metrics are
returned with the caller's `test_name` unchanged. -/
def executeTestScript (outcome : ProcOutcome) (testName : String) : ExecOutcome :=
  match outcome with
  | .completed stdout _ =>
    let r := parseTestOutput stdout
    { result := ⟨r.1, r.2, testName⟩, log := [], tempFileDeleted := true }
  | .timedOut =>
    { result := ⟨-999, 0, testName⟩,
      log := ["❌ " ++ testName ++ " test timed out"],
      tempFileDeleted := true }
  | .raised msg =>
    { result := ⟨-999, 0, testName⟩,
      log := ["❌ Error running " ++ testName ++ " test: " ++ msg],
      tempFileDeleted := true }

/-- Whether a string contains the given non-empty pattern as a substring
(via split: more than one fragment means at least one occurrence). -/
def containsSub (pat s : String) : Bool :=
  1 < (pySplit pat s).length

/-! ### Candidate selection, agent-logic track
(`AgentManager.test_multiple_agents`, RL/agent_manager.py)

The baseline ("original") metrics and the outcome of each candidate's
evaluation are inputs: `test_agent_performance` itself never raises (the
executor normalizes every failure into metrics), but the `try` block of the
loop also covers writing the candidate file, so an outcome of `none` models
an exception caught by the loop's `except`, which skips that candidate. -/

/-- Running state of a selection loop: the current best metrics, the current
best index (`-1` = the original), and the indices evaluated so far. -/
structure SelState where
  bestMetrics : Metrics
  bestIndex : Int
  evaluated : List Nat

/-- `improvement_threshold = 0.1` of `test_multiple_agents`. -/
def agentImprovementThreshold : ℚ := 1/10

/-- One iteration of the `test_multiple_agents` loop for candidate `i`. -/
def agentStep (st : SelState) (i : Nat) (outcome : Option Metrics) : SelState :=
  match outcome with
  | none => st
  | some metrics =>
    let st1 : SelState := { st with evaluated := st.evaluated ++ [i] }
    if metrics.avg_return > st1.bestMetrics.avg_return * (1 + agentImprovementThreshold) then
      { st1 with bestMetrics := metrics, bestIndex := (i : Int) }
    else st1

/-- The `for i, agent_code in enumerate(agent_codes)` loop. -/
def agentLoop : SelState → Nat → List (Option Metrics) → SelState
  | st, _, [] => st
  | st, i, o :: rest => agentLoop (agentStep st i o) (i + 1) rest

/-- `test_multiple_agents`: returns `(best_index, best_metrics)`; the third
component records which candidate indices were evaluated, in order. -/
def testMultipleAgents (originalMetrics : Metrics) (outcomes : List (Option Metrics)) :
    Int × Metrics × List Nat :=
  let final := agentLoop ⟨originalMetrics, -1, []⟩ 0 outcomes
  (final.bestIndex, final.bestMetrics, final.evaluated)

/-! ### Candidate selection, configuration track
(`ConfigManager.test_multiple_configs`, config/config_manager.py) -/

/-- `improvement_threshold = 0.05` of `test_multiple_configs`. -/
def configImprovementThreshold : ℚ := 1/20

/-- One iteration of the `test_multiple_configs` loop for variant `i`:
a sentinel score (`avg_return <= -999`) is skipped before the comparison. -/
def configStep (st : SelState) (i : Nat) (outcome : Option Metrics) : SelState :=
  match outcome with
  | none => st
  | some metrics =>
    let st1 : SelState := { st with evaluated := st.evaluated ++ [i] }
    if metrics.avg_return ≤ -999 then st1
    else if metrics.avg_return > st1.bestMetrics.avg_return + configImprovementThreshold then
      { st1 with bestMetrics := metrics, bestIndex := (i : Int) }
    else st1

/-- The `for i, config_variant in enumerate(config_variants)` loop. -/
def configLoop : SelState → Nat → List (Option Metrics) → SelState
  | st, _, [] => st
  | st, i, o :: rest => configLoop (configStep st i o) (i + 1) rest

/-- `test_multiple_configs`: if the original's score is the sentinel the
function returns `(-1, original)` before any variant is evaluated. -/
def testMultipleConfigs (originalMetrics : Metrics) (outcomes : List (Option Metrics)) :
    Int × Metrics × List Nat :=
  if originalMetrics.avg_return ≤ -999 then (-1, originalMetrics, [])
  else
    let final := configLoop ⟨originalMetrics, -1, []⟩ 0 outcomes
    (final.bestIndex, final.bestMetrics, final.evaluated)

/-- The indices of the non-exception outcomes of a candidate list, counting
from `i`: the candidates whose evaluation actually ran. -/
def evaluatedFrom : Nat → List (Option Metrics) → List Nat
  | _, [] => []
  | i, none :: rest => evaluatedFrom (i + 1) rest
  | i, some _ :: rest => i :: evaluatedFrom (i + 1) rest

/-! ### Version store and promotion gate for the agent artifact
(`AgentManager.save_best_agent`, `backup_current_agent`,
`_restore_latest_backup`; `validate_agent_code` in
validation/agent_validation.py)

The live file `RL/agent.py` is its content (`none` = the file does not
exist); the history directory is the list of backed-up contents in creation
order, so "most recent backup" is the last element. -/

/-- State of the agent artifact and its history directory. -/
structure AgentStore where
  agentFile : Option String
  history : List String
deriving DecidableEq

/-- `backup_current_agent`: copies the live file into the history (returning
a name), or returns `""` without a backup when no live file exists.  The
timestamped name is modelled by the creation index. -/
def backupCurrentAgent (s : AgentStore) : AgentStore × String :=
  match s.agentFile with
  | none => (s, "")
  | some content =>
    ({ s with history := s.history ++ [content] },
     "RL/agent_history/agent_" ++ Nat.repr s.history.length ++ ".py")

/-- `_restore_latest_backup`: overwrite the live file with the most recent
history entry; no-op when the history is empty. -/
def restoreLatestBackup (s : AgentStore) : AgentStore :=
  match s.history.getLast? with
  | none => s
  | some latest => { s with agentFile := some latest }

/-- Outcome of loading and probing the freshly written agent module, the
inputs of `validate_agent_code`: whether `exec_module` succeeded, the
structural facts about the loaded module, and the `avg_return` of the
one-episode demo run (`test_demo_run`; the underlying
`run_performance_test` never raises). -/
structure ValidationEnv where
  loadOk : Bool
  hasAgentClass : Bool
  hasSelectAction : Bool
  hasLearn : Bool
  hasDecayEpsilon : Bool
  demoAvgReturn : ℚ

/-- `validate_agent_code`: structural checks in source order, then the
functional check `metrics['avg_return'] > -999` of `test_demo_run`. -/
def validateAgentCode (v : ValidationEnv) : Bool :=
  if !v.loadOk then false
  else if !v.hasAgentClass then false
  else if !v.hasSelectAction then false
  else if !v.hasLearn then false
  else if !v.hasDecayEpsilon then false
  else decide (v.demoAvgReturn > -999)

/-- Python list indexing `l[i]` with negative indices counting from the end;
`none` models `IndexError`. -/
def pyListGet (l : List String) (i : Int) : Option String :=
  if 0 ≤ i then l.get? i.toNat
  else if 0 ≤ i + l.length then l.get? (i + l.length).toNat
  else none

/-- `save_best_agent(agent_codes, best_index)`: index `-1` returns `False`
with no writes; otherwise backup, overwrite the live file with the chosen
candidate, validate, and on a failed validation (or an exception, e.g. an
out-of-range index) restore the most recent backup and return `False`. -/
def saveBestAgent (store : AgentStore) (agentCodes : List String) (bestIndex : Int)
    (v : ValidationEnv) : AgentStore × Bool :=
  if bestIndex = -1 then (store, false)
  else
    let store1 := (backupCurrentAgent store).1
    match pyListGet agentCodes bestIndex with
    | none => (restoreLatestBackup store1, false)
    | some bestCode =>
      let store2 : AgentStore := { store1 with agentFile := some bestCode }
      if validateAgentCode v then (store2, true)
      else (restoreLatestBackup store2, false)

/-! ### Scratch-directory lifecycle
(`AgentManager._cleanup_temp_agents`, and the candidate files written by
`test_multiple_agents`) -/

/-- Whether a file name matches the glob `candidate_*.py` (`*` matches any,
possibly empty, sequence). -/
def isCandidateTempFile (f : String) : Bool :=
  pyStartsWith "candidate_" f && pyEndsWith ".py" f && decide (13 ≤ f.data.length)

/-- `_cleanup_temp_agents` on the scratch directory: unlink every
`candidate_*.py` and remove the `__pycache__` directory if present. -/
def cleanupTempAgents (dir : List String) : List String :=
  dir.filter fun f => !(isCandidateTempFile f) && !(f = "__pycache__" : Bool)

/-- The scratch directory after a `test_multiple_agents` round: the round
writes `candidate_i.py` for each candidate, the spawned interpreters may drop
arbitrary residue (`extra`, e.g. `__pycache__`), and the round ends with
`_cleanup_temp_agents`. -/
def scratchAfterRound (initial : List String) (numCandidates : Nat) (extra : List String) :
    List String :=
  cleanupTempAgents
    (initial ++ (List.range numCandidates).map (fun i => "candidate_" ++ Nat.repr i ++ ".py")
      ++ extra)

/-! ### The configuration document

Five fixed top-level categories, each a mapping from parameter name to a
numeric value (Python dicts are modelled as association lists; assignment
keeps the position of an existing key and appends a new one). -/

/-- A configuration document (`config.json` shape). -/
structure ConfigDoc where
  environment : List (String × ℚ)
  rewards : List (String × ℚ)
  agent : List (String × ℚ)
  training : List (String × ℚ)
  system : List (String × ℚ)
deriving DecidableEq

/-- Python dict lookup `d[key]` on an association list (`none` = `KeyError`;
also the truth value of `key in d`). -/
def lookupStr {α : Type} : List (String × α) → String → Option α
  | [], _ => none
  | (k, v) :: rest, key => if key = k then some v else lookupStr rest key

/-- Python dict assignment `d[key] = value`: replace in place, or append. -/
def setAssoc : List (String × ℚ) → String → ℚ → List (String × ℚ)
  | [], k, v => [(k, v)]
  | (k0, v0) :: rest, k, v =>
    if k0 = k then (k0, v) :: rest else (k0, v0) :: setAssoc rest k v

/-! ### The harness generator
(`_generate_test_script`, validation/test_runner.py)

The generated program text is the source's f-string template rendered as an
explicit concatenation of its literal chunks and its interpolated holes
(`Path.cwd()`, `json.dumps(test_config)`, `agent_file`, `num_episodes`).
The numeric rendering of `json.dumps` is abstracted by `ratPyStr` (no claim
inspects those digits). -/

/-- Rendering of a numeric value inside the embedded JSON blob. -/
def ratPyStr (q : ℚ) : String :=
  if q.den = 1 then Int.repr q.num else Int.repr q.num ++ "/" ++ Nat.repr q.den

/-- The comma-separated members of a JSON object. -/
def jsonPairs : List (String × ℚ) → String
  | [] => ""
  | [(k, v)] => "\"" ++ k ++ "\": " ++ ratPyStr v
  | (k, v) :: rest => "\"" ++ k ++ "\": " ++ ratPyStr v ++ ", " ++ jsonPairs rest

/-- A JSON object for one category mapping. -/
def jsonObj (l : List (String × ℚ)) : String :=
  "\x7b" ++ jsonPairs l ++ "\x7d"

/-- `json.dumps(test_config)` for the five-category document. -/
def jsonDumpsConfig (c : ConfigDoc) : String :=
  "\x7b\"environment\": " ++ jsonObj c.environment ++ ", \"rewards\": " ++ jsonObj c.rewards ++
    ", \"agent\": " ++ jsonObj c.agent ++ ", \"training\": " ++ jsonObj c.training ++
    ", \"system\": " ++ jsonObj c.system ++ "\x7d"

/-- The `config_setup` hole of the template: embed the supplied document as
literal data, or fall back to the ambient configuration. -/
def configSetupBlock : Option ConfigDoc → String
  | some cfg =>
    "\n# Use provided test config\ntest_config = " ++ jsonDumpsConfig cfg ++
      "\nflat_config = \x7b\x7d\nflat_config.update(test_config[\"environment\"])\nflat_config.update(test_config[\"rewards\"])\nflat_config.update(test_config[\"agent\"])\nflat_config.update(test_config[\"training\"])\nflat_config.update(test_config[\"system\"])\n"
  | none =>
    "\n# Use current config\nfrom config.config_helper import get_flat_config\nflat_config = get_flat_config()\n"

/-- The `agent_import` hole of the template: load the given candidate file,
or the committed baseline agent. -/
def agentImportBlock : Option String → String
  | some agentFile =>
    "\n# Import specific agent file\nimport importlib.util\nspec = importlib.util.spec_from_file_location(\"test_agent\", \"" ++ agentFile ++
      "\")\ntest_agent_module = importlib.util.module_from_spec(spec)\nspec.loader.exec_module(test_agent_module)\nAgent = test_agent_module.Agent\n"
  | none => "\n# Import default agent\nfrom RL.agent import Agent\n"

/-- Template up to the `config_setup` hole. -/
def scriptHead (cwd : String) : String :=
  "\nimport sys\nimport os\nimport numpy as np\nimport random\nfrom pathlib import Path\n\n# Add the project directory to sys.path\nproject_dir = \"" ++ cwd ++
    "\"\nif project_dir not in sys.path:\n    sys.path.insert(0, project_dir)\n\n"

/-- Template between the `agent_import` hole and the first seed call. -/
def scriptPreSeed : String :=
  "\nfrom env import GridWorld\n\ntry:\n    # Set seeds for reproducible test\n    "

/-- Template between the two seed calls. -/
def scriptSeedSep : String := "\n    "

/-- Template between the second seed call and the episode loop header. -/
def scriptPreLoop : String :=
  "\n    \n    # Create environment and agent\n    env = GridWorld(flat_config[\"grid_size\"], flat_config[\"n_traps\"])\n    agent = Agent(env)\n    \n    returns = []\n    \n    # Run test episodes\n    "

/-- The episode loop header with the interpolated episode count. -/
def scriptLoopHead (numEpisodes : Nat) : String :=
  "for ep in range(" ++ Nat.repr numEpisodes ++ "):"

/-- Template after the loop header: loop body, metric computation, the
Result Protocol print, and the catch-all failure handler. -/
def scriptTail : String :=
  "\n        state = env.reset()\n        done = False\n        ep_return = 0.0\n        steps = 0\n        \n        while not done and steps < flat_config[\"max_steps_per_episode\"]:\n            action = agent.select_action(state)\n            next_state, reward, done, _ = env.step(action)\n            agent.learn(state, action, reward, next_state, done)\n            \n            state = next_state\n            ep_return += reward\n            steps += 1\n        \n        agent.decay_epsilon()\n        returns.append(ep_return)\n    \n    # Calculate metrics\n    avg_return = float(np.mean(returns))\n    success_rate = float(sum(1 for r in returns if r > 0) / len(returns))\n    \n    print(f\"RESULTS: avg_return=\x7bavg_return:.3f\x7d, success_rate=\x7bsuccess_rate:.3f\x7d\")\n    \nexcept Exception as e:\n    print(f\"ERROR: \x7be\x7d\")\n    import traceback\n    traceback.print_exc()\n    print(\"RESULTS: avg_return=-999.000, success_rate=0.000\")\n    sys.exit(1)\n"

/-- `_generate_test_script(test_config, agent_file, num_episodes)`, with the
ambient `Path.cwd()` passed explicitly. -/
def generateTestScript (testConfig : Option ConfigDoc) (agentFile : Option String)
    (numEpisodes : Nat) (cwd : String) : String :=
  scriptHead cwd ++ configSetupBlock testConfig ++ "\n" ++ agentImportBlock agentFile ++
    scriptPreSeed ++ "random.seed(42)" ++ scriptSeedSep ++ "np.random.seed(42)" ++
    scriptPreLoop ++ scriptLoopHead numEpisodes ++ scriptTail

/-! ### Parameter validation (validation/param_validation.py) -/

/-- `PARAMETER_BOUNDS`: `(min, max)` per parameter, `none` = no bound
(`n_traps`' upper bound is dynamic, `seed` is unbounded). -/
def PARAMETER_BOUNDS : List (String × Option ℚ × Option ℚ) :=
  [("grid_size", some 1, some 10),
   ("n_traps", some 0, none),
   ("move_penalty", some (-1), some 0),
   ("trap_penalty", some (-10), some 0),
   ("goal_reward", some (1/10), some 10),
   ("learning_rate", some (1/100), some 1),
   ("gamma", some (1/10), some (99/100)),
   ("epsilon_start", some (1/10), some 1),
   ("epsilon_min", some (1/100), some (1/2)),
   ("epsilon_decay", some (9/10), some (999/1000)),
   ("episodes", some 50, some 1000),
   ("max_steps_per_episode", some 50, some 500),
   ("seed", none, none)]

/-- `PARAMETER_CATEGORIES`: the config section of each parameter. -/
def PARAMETER_CATEGORIES : List (String × String) :=
  [("grid_size", "environment"),
   ("n_traps", "environment"),
   ("move_penalty", "rewards"),
   ("trap_penalty", "rewards"),
   ("goal_reward", "rewards"),
   ("learning_rate", "agent"),
   ("gamma", "agent"),
   ("epsilon_start", "agent"),
   ("epsilon_min", "agent"),
   ("epsilon_decay", "agent"),
   ("episodes", "training"),
   ("max_steps_per_episode", "training"),
   ("seed", "system")]

/-- Rendering of an optional bound inside an error message. -/
def boundStr : Option ℚ → String
  | none => "None"
  | some q => ratPyStr q

/-- `validate_parameter(key, value, config) -> (is_valid, error_msg)`;
`none` models the `KeyError` the source raises when the dynamic `n_traps`
check reads `config["environment"]["grid_size"]` and it is absent. -/
def validateParameter (key : String) (value : ℚ) (config : ConfigDoc) :
    Option (Bool × String) :=
  match lookupStr PARAMETER_BOUNDS key with
  | none => some (false, "Unknown parameter '" ++ key ++ "'")
  | some (minVal, maxVal) =>
    if (match minVal with | some m => decide (value < m) | none => false) then
      some (false, key ++ "=" ++ ratPyStr value ++ " outside bounds [" ++ boundStr minVal ++
        ", " ++ boundStr maxVal ++ "]")
    else if (match maxVal with | some m => decide (value > m) | none => false) then
      some (false, key ++ "=" ++ ratPyStr value ++ " outside bounds [" ++ boundStr minVal ++
        ", " ++ boundStr maxVal ++ "]")
    else if key = "n_traps" then
      match lookupStr config.environment "grid_size" with
      | none => none
      | some size =>
        if value > size then
          some (false, "n_traps=" ++ ratPyStr value ++ " too high for " ++ ratPyStr size ++
            "x" ++ ratPyStr size ++ " grid (max " ++ ratPyStr size ++ ")")
        else some (true, "")
    else some (true, "")

/-- `get_parameter_category(key)`. -/
def getParameterCategory (key : String) : Option String :=
  lookupStr PARAMETER_CATEGORIES key

/-! ### Variant generation (`ConfigManager.generate_config_variants`,
config/config_manager.py) -/

/-- `self.environment_params`. -/
def environmentParams : List String :=
  ["grid_size", "n_traps", "move_penalty", "trap_penalty", "goal_reward"]

/-- `self.agent_params`. -/
def agentParams : List String :=
  ["learning_rate", "gamma", "epsilon_start", "epsilon_min", "epsilon_decay"]

/-- `self.training_params`. -/
def trainingParams : List String :=
  ["episodes", "max_steps_per_episode"]

/-- `variant[category]` for the five fixed sections (`category in variant`
is true exactly when this is `some`). -/
def getSection (c : ConfigDoc) (cat : String) : Option (List (String × ℚ)) :=
  if cat = "environment" then some c.environment
  else if cat = "rewards" then some c.rewards
  else if cat = "agent" then some c.agent
  else if cat = "training" then some c.training
  else if cat = "system" then some c.system
  else none

/-- Replace one section of a document. -/
def setSection (c : ConfigDoc) (cat : String) (sec : List (String × ℚ)) : ConfigDoc :=
  if cat = "environment" then { c with environment := sec }
  else if cat = "rewards" then { c with rewards := sec }
  else if cat = "agent" then { c with agent := sec }
  else if cat = "training" then { c with training := sec }
  else if cat = "system" then { c with system := sec }
  else c

/-- The body of the inner `for param, value in param_changes.items()` loop:
skip a parameter outside the focus area, skip an invalid parameter, apply a
valid one to its section; `none` propagates the `KeyError` of
`validate_parameter`. -/
def applyOneChange (focusArea : String) (base variant : ConfigDoc) (param : String)
    (value : ℚ) : Option ConfigDoc :=
  if focusArea = "agent" && !(agentParams.contains param) then some variant
  else if focusArea = "training" && !(trainingParams.contains param) then some variant
  else
    match validateParameter param value base with
    | none => none
    | some (isValid, _) =>
      if !isValid then some variant
      else
        match getParameterCategory param with
        | some category =>
          match getSection variant category with
          | some sec => some (setSection variant category (setAssoc sec param value))
          | none => some variant
        | none => some variant

/-- The inner loop over one `param_changes` mapping, starting from
`deepcopy(base_config)`. -/
def applyChanges (focusArea : String) (base : ConfigDoc) :
    ConfigDoc → List (String × ℚ) → Option ConfigDoc
  | variant, [] => some variant
  | variant, (p, v) :: rest =>
    match applyOneChange focusArea base variant p v with
    | none => none
    | some variant2 => applyChanges focusArea base variant2 rest

/-- `generate_config_variants(base_config, param_changes_list, focus_area)`:
one variant is appended per mapping, unconditionally. -/
def generateConfigVariants (base : ConfigDoc) (paramChangesList : List (List (String × ℚ)))
    (focusArea : String) : Option (List ConfigDoc) :=
  match paramChangesList with
  | [] => some []
  | pc :: rest =>
    match applyChanges focusArea base base pc with
    | none => none
    | some v => (generateConfigVariants base rest focusArea).map (fun vs => v :: vs)

/-- Whether one requested change is actually applied by
`generate_config_variants`: it passes the focus-area gate, validates against
the base configuration, and its category resolves to a section. -/
def changeAccepted (focusArea : String) (base : ConfigDoc) (param : String) (value : ℚ) :
    Bool :=
  !(focusArea = "agent" && !(agentParams.contains param)) &&
  !(focusArea = "training" && !(trainingParams.contains param)) &&
  (match validateParameter param value base with
   | some (true, _) => true
   | _ => false) &&
  (getParameterCategory param).isSome

/-- The value a document holds for a parameter, at the section its category
assigns to it. -/
def lookupParamValue (c : ConfigDoc) (param : String) : Option ℚ :=
  match getParameterCategory param with
  | none => none
  | some cat => (getSection c cat).bind fun sec => lookupStr sec param

/-! ### The spec's statement of the parameter bounds table

`specParameterValid` transcribes the specification's wording of the bounds
(`grid_size ∈ [1,10]`, `n_traps ∈ [0, grid_size]`, ..., `seed` unbounded),
to be compared against `validateParameter` as embedded from the source. -/

/-- The specification's per-key validity predicate, given the
configuration's `grid_size`. -/
def specParameterValid (key : String) (value gridSize : ℚ) : Bool :=
  if key = "grid_size" then decide (1 ≤ value ∧ value ≤ 10)
  else if key = "n_traps" then decide (0 ≤ value ∧ value ≤ gridSize)
  else if key = "move_penalty" then decide (-1 ≤ value ∧ value ≤ 0)
  else if key = "trap_penalty" then decide (-10 ≤ value ∧ value ≤ 0)
  else if key = "goal_reward" then decide (1/10 ≤ value ∧ value ≤ 10)
  else if key = "learning_rate" then decide (1/100 ≤ value ∧ value ≤ 1)
  else if key = "gamma" then decide (1/10 ≤ value ∧ value ≤ 99/100)
  else if key = "epsilon_start" then decide (1/10 ≤ value ∧ value ≤ 1)
  else if key = "epsilon_min" then decide (1/100 ≤ value ∧ value ≤ 1/2)
  else if key = "epsilon_decay" then decide (9/10 ≤ value ∧ value ≤ 999/1000)
  else if key = "episodes" then decide (50 ≤ value ∧ value ≤ 1000)
  else if key = "max_steps_per_episode" then decide (50 ≤ value ∧ value ≤ 500)
  else if key = "seed" then true
  else false

/-! ### Concrete sample inputs used by the witness theorems -/

/-- A well-formed sample configuration document (grid size 5). -/
def sampleGridConfig : ConfigDoc :=
  { environment := [("grid_size", 5), ("n_traps", 2)]
    rewards := [("move_penalty", -1), ("trap_penalty", -10), ("goal_reward", 10)]
    agent := [("learning_rate", 1), ("gamma", 1/2), ("epsilon_start", 1),
      ("epsilon_min", 1/10), ("epsilon_decay", 99/100)]
    training := [("episodes", 100), ("max_steps_per_episode", 100)]
    system := [("seed", 42)] }

/-- A sample agent store with a live agent file and empty history. -/
def sampleStore : AgentStore := ⟨some "baseline agent code", []⟩

/-- A validation outcome where every check passes. -/
def sampleValidation : ValidationEnv := ⟨true, true, true, true, true, 1⟩

/-! ### Helper lemmas: selection loops -/

theorem agentStep_evaluated (st : SelState) (i : Nat) (o : Option Metrics) :
    (agentStep st i o).evaluated =
      st.evaluated ++ (match o with | none => [] | some _ => [i]) := by
  cases o with
  | none => simp [agentStep]
  | some m =>
    by_cases h : m.avg_return > st.bestMetrics.avg_return * (1 + agentImprovementThreshold) <;>
      simp [agentStep, h]

theorem agentLoop_evaluated :
    ∀ (outs : List (Option Metrics)) (st : SelState) (i : Nat),
      (agentLoop st i outs).evaluated = st.evaluated ++ evaluatedFrom i outs := by
  intro outs
  induction outs with
  | nil => intro st i; simp [agentLoop, evaluatedFrom]
  | cons o rest ih =>
    intro st i
    cases o with
    | none => simp [agentLoop, ih, agentStep, evaluatedFrom]
    | some m =>
      simp only [agentLoop, ih, agentStep_evaluated, evaluatedFrom]
      simp

theorem configStep_evaluated (st : SelState) (i : Nat) (o : Option Metrics) :
    (configStep st i o).evaluated =
      st.evaluated ++ (match o with | none => [] | some _ => [i]) := by
  cases o with
  | none => simp [configStep]
  | some m => by_cases h1 : m.avg_return ≤ -999 <;>
      by_cases h2 : m.avg_return > st.bestMetrics.avg_return + configImprovementThreshold <;>
      simp [configStep, h1, h2]

theorem configLoop_evaluated :
    ∀ (outs : List (Option Metrics)) (st : SelState) (i : Nat),
      (configLoop st i outs).evaluated = st.evaluated ++ evaluatedFrom i outs := by
  intro outs
  induction outs with
  | nil => intro st i; simp [configLoop, evaluatedFrom]
  | cons o rest ih =>
    intro st i
    cases o with
    | none => simp [configLoop, ih, configStep, evaluatedFrom]
    | some m =>
      simp only [configLoop, ih, configStep_evaluated, evaluatedFrom]
      simp

theorem configStep_best_lt (st : SelState) (i : Nat) (o : Option Metrics)
    (h : -999 < st.bestMetrics.avg_return) :
    -999 < (configStep st i o).bestMetrics.avg_return := by
  cases o with
  | none => simpa [configStep] using h
  | some m =>
    by_cases h1 : m.avg_return ≤ -999 <;>
      by_cases h2 : m.avg_return > st.bestMetrics.avg_return + configImprovementThreshold <;>
      simp [configStep, h1, h2] <;> linarith

theorem configLoop_best_lt :
    ∀ (outs : List (Option Metrics)) (st : SelState) (i : Nat),
      -999 < st.bestMetrics.avg_return →
      -999 < (configLoop st i outs).bestMetrics.avg_return := by
  intro outs
  induction outs with
  | nil => intro st i h; simpa [configLoop] using h
  | cons o rest ih =>
    intro st i h
    exact ih _ _ (configStep_best_lt st i o h)

/-! ### Helper lemmas: output parsing -/

theorem parseScan_no_avg :
    ∀ (lines : List String) (acc : Option (Bool × Nat × Nat × Nat)),
      (lines.all fun l => (lineAvgParts l).isNone) = true →
      parseScan lines acc = (acc, none) := by
  intro lines
  induction lines with
  | nil => intro acc _; rfl
  | cons l ls ih =>
    intro acc h
    simp only [List.all_cons, Bool.and_eq_true, Option.isNone_iff_eq_none] at h
    simp [parseScan, h.1, ih acc (by simpa using h.2)]

/-! ### Helper lemmas: parameter table and sections -/

theorem category_mem (p cat : String) (h : getParameterCategory p = some cat) :
    cat = "environment" ∨ cat = "rewards" ∨ cat = "agent" ∨ cat = "training" ∨
      cat = "system" := by
  by_cases k1 : p = "grid_size"
  · subst k1; rw [show getParameterCategory "grid_size" = some "environment" from rfl] at h
    injection h with h2; subst h2; tauto
  by_cases k2 : p = "n_traps"
  · subst k2; rw [show getParameterCategory "n_traps" = some "environment" from rfl] at h
    injection h with h2; subst h2; tauto
  by_cases k3 : p = "move_penalty"
  · subst k3; rw [show getParameterCategory "move_penalty" = some "rewards" from rfl] at h
    injection h with h2; subst h2; tauto
  by_cases k4 : p = "trap_penalty"
  · subst k4; rw [show getParameterCategory "trap_penalty" = some "rewards" from rfl] at h
    injection h with h2; subst h2; tauto
  by_cases k5 : p = "goal_reward"
  · subst k5; rw [show getParameterCategory "goal_reward" = some "rewards" from rfl] at h
    injection h with h2; subst h2; tauto
  by_cases k6 : p = "learning_rate"
  · subst k6; rw [show getParameterCategory "learning_rate" = some "agent" from rfl] at h
    injection h with h2; subst h2; tauto
  by_cases k7 : p = "gamma"
  · subst k7; rw [show getParameterCategory "gamma" = some "agent" from rfl] at h
    injection h with h2; subst h2; tauto
  by_cases k8 : p = "epsilon_start"
  · subst k8; rw [show getParameterCategory "epsilon_start" = some "agent" from rfl] at h
    injection h with h2; subst h2; tauto
  by_cases k9 : p = "epsilon_min"
  · subst k9; rw [show getParameterCategory "epsilon_min" = some "agent" from rfl] at h
    injection h with h2; subst h2; tauto
  by_cases k10 : p = "epsilon_decay"
  · subst k10; rw [show getParameterCategory "epsilon_decay" = some "agent" from rfl] at h
    injection h with h2; subst h2; tauto
  by_cases k11 : p = "episodes"
  · subst k11; rw [show getParameterCategory "episodes" = some "training" from rfl] at h
    injection h with h2; subst h2; tauto
  by_cases k12 : p = "max_steps_per_episode"
  · subst k12
    rw [show getParameterCategory "max_steps_per_episode" = some "training" from rfl] at h
    injection h with h2; subst h2; tauto
  by_cases k13 : p = "seed"
  · subst k13; rw [show getParameterCategory "seed" = some "system" from rfl] at h
    injection h with h2; subst h2; tauto
  · have hn : getParameterCategory p = none := by
      simp only [getParameterCategory, PARAMETER_CATEGORIES, lookupStr]
      rw [if_neg k1, if_neg k2, if_neg k3, if_neg k4, if_neg k5, if_neg k6, if_neg k7,
        if_neg k8, if_neg k9, if_neg k10, if_neg k11, if_neg k12, if_neg k13]
    rw [hn] at h
    exact absurd h (by simp)

theorem getSection_setSection_ne (c : ConfigDoc) (cat cat' : String)
    (sec : List (String × ℚ))
    (hmem : cat = "environment" ∨ cat = "rewards" ∨ cat = "agent" ∨ cat = "training" ∨
      cat = "system")
    (h : cat' ≠ cat) :
    getSection (setSection c cat sec) cat' = getSection c cat' := by
  rcases hmem with hm | hm | hm | hm | hm <;> subst hm
  · rw [show setSection c "environment" sec = { c with environment := sec } from rfl]
    simp only [getSection, if_neg h]
  · rw [show setSection c "rewards" sec = { c with rewards := sec } from rfl]
    simp only [getSection, if_neg h]
  · rw [show setSection c "agent" sec = { c with agent := sec } from rfl]
    simp only [getSection, if_neg h]
  · rw [show setSection c "training" sec = { c with training := sec } from rfl]
    simp only [getSection, if_neg h]
  · rw [show setSection c "system" sec = { c with system := sec } from rfl]
    simp only [getSection, if_neg h]

theorem getSection_isSome (c : ConfigDoc) (cat : String)
    (h : cat = "environment" ∨ cat = "rewards" ∨ cat = "agent" ∨ cat = "training" ∨
      cat = "system") : (getSection c cat).isSome := by
  rcases h with h | h | h | h | h <;> subst h <;> rfl

theorem getSection_setSection_self (c : ConfigDoc) (cat : String) (sec : List (String × ℚ))
    (h : cat = "environment" ∨ cat = "rewards" ∨ cat = "agent" ∨ cat = "training" ∨
      cat = "system") :
    getSection (setSection c cat sec) cat = some sec := by
  rcases h with h | h | h | h | h <;> subst h <;> rfl

theorem validateParameter_isSome (key : String) (value : ℚ) (cfg : ConfigDoc) (g : ℚ)
    (hg : lookupStr cfg.environment "grid_size" = some g) :
    (validateParameter key value cfg).isSome := by
  unfold validateParameter
  cases lookupStr PARAMETER_BOUNDS key with
  | none => rfl
  | some bd =>
    obtain ⟨mn, mx⟩ := bd
    dsimp only
    split_ifs <;> first
      | rfl
      | (rw [hg]; dsimp only; split_ifs <;> rfl)

theorem lookupStr_setAssoc_self (l : List (String × ℚ)) (k : String) (v : ℚ) :
    lookupStr (setAssoc l k v) k = some v := by
  induction l with
  | nil => simp [setAssoc, lookupStr]
  | cons h t ih =>
    obtain ⟨k0, v0⟩ := h
    by_cases hk : k0 = k
    · subst hk; simp [setAssoc, lookupStr]
    · simp [setAssoc, lookupStr, hk, Ne.symm hk, ih]

theorem lookupStr_setAssoc_ne (l : List (String × ℚ)) (k k' : String) (v : ℚ)
    (h : k' ≠ k) : lookupStr (setAssoc l k v) k' = lookupStr l k' := by
  induction l with
  | nil => simp [setAssoc, lookupStr, h]
  | cons hd t ih =>
    obtain ⟨k0, v0⟩ := hd
    by_cases hk : k0 = k
    · subst hk; simp [setAssoc, lookupStr, h]
    · simp [setAssoc, lookupStr, hk, ih]

/-! ### Helper lemmas: one change of `generate_config_variants` -/

theorem applyOneChange_lookup_self (focus : String) (base variant w : ConfigDoc)
    (p : String) (v : ℚ)
    (happ : applyOneChange focus base variant p v = some w) :
    lookupParamValue w p =
      if changeAccepted focus base p v then some v else lookupParamValue variant p := by
  unfold applyOneChange at happ
  split_ifs at happ with hf1 hf2
  · injection happ with hw; subst hw
    have hacc : changeAccepted focus base p v = false := by
      simp only [changeAccepted, hf1, Bool.not_true, Bool.false_and]
    rw [hacc]; simp
  · injection happ with hw; subst hw
    have hacc : changeAccepted focus base p v = false := by
      simp only [changeAccepted, hf2, Bool.not_true, Bool.false_and, Bool.and_false]
    rw [hacc]; simp
  · cases hvp : validateParameter p v base with
    | none => rw [hvp] at happ; cases happ
    | some r =>
      obtain ⟨b, msg⟩ := r
      rw [hvp] at happ
      cases b with
      | false =>
        simp only [Bool.not_false, if_true] at happ
        injection happ with hw; subst hw
        have hacc : changeAccepted focus base p v = false := by
          simp [changeAccepted, hvp]
        rw [hacc]; simp
      | true =>
        simp only [Bool.not_true, Bool.false_eq_true, if_false] at happ
        cases hcat : getParameterCategory p with
        | none =>
          rw [hcat] at happ
          injection happ with hw; subst hw
          have hacc : changeAccepted focus base p v = false := by
            simp [changeAccepted, hcat]
          rw [hacc]; simp
        | some cat =>
          rw [hcat] at happ
          dsimp only at happ
          have hmem := category_mem p cat hcat
          obtain ⟨sec, hsec⟩ := Option.isSome_iff_exists.mp (getSection_isSome variant cat hmem)
          rw [hsec] at happ
          injection happ with hw; subst hw
          have hacc : changeAccepted focus base p v = true := by
            simp only [changeAccepted, hvp, hcat]
            simp only [Bool.not_eq_true, Bool.and_eq_true, Bool.not_eq_false] at hf1 hf2
            simp at hf1 hf2 ⊢
            tauto
          rw [hacc]
          simp only [lookupParamValue, hcat]
          rw [getSection_setSection_self _ _ _ hmem]
          simp [lookupStr_setAssoc_self]

theorem applyOneChange_lookup_ne (focus : String) (base variant w : ConfigDoc)
    (q : String) (v : ℚ) (p : String) (hne : p ≠ q)
    (happ : applyOneChange focus base variant q v = some w) :
    lookupParamValue w p = lookupParamValue variant p := by
  unfold applyOneChange at happ
  split_ifs at happ with hf1 hf2
  · injection happ with hw; subst hw; rfl
  · injection happ with hw; subst hw; rfl
  · cases hvp : validateParameter q v base with
    | none => rw [hvp] at happ; cases happ
    | some r =>
      obtain ⟨b, msg⟩ := r
      rw [hvp] at happ
      cases b with
      | false =>
        simp only [Bool.not_false, if_true] at happ
        injection happ with hw; subst hw; rfl
      | true =>
        simp only [Bool.not_true, Bool.false_eq_true, if_false] at happ
        cases hcat : getParameterCategory q with
        | none => rw [hcat] at happ; injection happ with hw; subst hw; rfl
        | some cat =>
          rw [hcat] at happ
          dsimp only at happ
          have hmem := category_mem q cat hcat
          obtain ⟨sec, hsec⟩ := Option.isSome_iff_exists.mp (getSection_isSome variant cat hmem)
          rw [hsec] at happ
          injection happ with hw; subst hw
          unfold lookupParamValue
          cases hcatp : getParameterCategory p with
          | none => rfl
          | some catp =>
            dsimp only
            by_cases hcc : catp = cat
            · subst hcc
              rw [getSection_setSection_self _ _ _ hmem, hsec]
              simp [lookupStr_setAssoc_ne _ _ _ _ hne]
            · rw [getSection_setSection_ne _ _ _ _ hmem hcc]

theorem applyOneChange_isSome (focus : String) (base variant : ConfigDoc)
    (p : String) (v : ℚ) (g : ℚ)
    (hg : lookupStr base.environment "grid_size" = some g) :
    (applyOneChange focus base variant p v).isSome := by
  unfold applyOneChange
  split_ifs with hf1 hf2
  · rfl
  · rfl
  · cases hvp : validateParameter p v base with
    | none =>
      exact absurd (Option.isSome_iff_exists.mp (validateParameter_isSome p v base g hg))
        (by simp [hvp])
    | some r =>
      obtain ⟨b, msg⟩ := r
      cases b with
      | false => simp
      | true =>
        simp only [Bool.not_true, Bool.false_eq_true, if_false]
        cases hcat : getParameterCategory p with
        | none => rfl
        | some cat =>
          dsimp only
          obtain ⟨sec, hsec⟩ := Option.isSome_iff_exists.mp
            (getSection_isSome variant cat (category_mem p cat hcat))
          rw [hsec]
          rfl

/-! ### Helper lemmas: one mapping of `generate_config_variants` -/

theorem applyChanges_some (focus : String) (base : ConfigDoc) (g : ℚ)
    (hg : lookupStr base.environment "grid_size" = some g) :
    ∀ (pc : List (String × ℚ)) (variant : ConfigDoc),
      ∃ w, applyChanges focus base variant pc = some w := by
  intro pc
  induction pc with
  | nil => intro variant; exact ⟨variant, rfl⟩
  | cons hd rest ih =>
    intro variant
    obtain ⟨p, v⟩ := hd
    obtain ⟨v1, hv1⟩ := Option.isSome_iff_exists.mp
      (applyOneChange_isSome focus base variant p v g hg)
    obtain ⟨w, hw⟩ := ih v1
    exact ⟨w, by simp [applyChanges, hv1, hw]⟩

theorem applyChanges_lookup_notin (focus : String) (base : ConfigDoc) :
    ∀ (pc : List (String × ℚ)) (variant w : ConfigDoc) (p : String),
      applyChanges focus base variant pc = some w →
      (∀ v, (p, v) ∉ pc) →
      lookupParamValue w p = lookupParamValue variant p := by
  intro pc
  induction pc with
  | nil => intro variant w p h _; injection h with h2; subst h2; rfl
  | cons hd rest ih =>
    intro variant w p h hnotin
    obtain ⟨q, v0⟩ := hd
    have hqp : p ≠ q := by
      intro he; subst he
      exact hnotin v0 (List.mem_cons_self _ _)
    unfold applyChanges at h
    cases happ : applyOneChange focus base variant q v0 with
    | none => rw [happ] at h; cases h
    | some v1 =>
      rw [happ] at h
      dsimp only at h
      have hrest : ∀ v, (p, v) ∉ rest := fun v hv => hnotin v (List.mem_cons_of_mem _ hv)
      rw [ih v1 w p h hrest]
      exact applyOneChange_lookup_ne focus base variant v1 q v0 p hqp happ

theorem applyChanges_lookup_mem (focus : String) (base : ConfigDoc) :
    ∀ (pc : List (String × ℚ)) (variant w : ConfigDoc) (p : String) (v : ℚ),
      applyChanges focus base variant pc = some w →
      (p, v) ∈ pc →
      (pc.map Prod.fst).Nodup →
      lookupParamValue w p =
        if changeAccepted focus base p v then some v else lookupParamValue variant p := by
  intro pc
  induction pc with
  | nil => intro _ _ _ _ _ hmem; cases hmem
  | cons hd rest ih =>
    intro variant w p v h hmem hnodup
    obtain ⟨q, v0⟩ := hd
    unfold applyChanges at h
    cases happ : applyOneChange focus base variant q v0 with
    | none => rw [happ] at h; cases h
    | some v1 =>
      rw [happ] at h
      dsimp only at h
      simp only [List.map_cons, List.nodup_cons] at hnodup
      rcases List.mem_cons.mp hmem with heq | hmem2
      · injection heq with he1 he2
        subst he1; subst he2
        have hrest : ∀ u, (p, u) ∉ rest := by
          intro u hu
          exact hnodup.1 (List.mem_map.mpr ⟨(p, u), hu, rfl⟩)
        rw [applyChanges_lookup_notin focus base rest v1 w p h hrest]
        exact applyOneChange_lookup_self focus base variant v1 p v happ
      · have hqp : p ≠ q := by
          intro he; subst he
          exact hnodup.1 (List.mem_map.mpr ⟨(p, v), hmem2, rfl⟩)
        rw [ih v1 w p v h hmem2 hnodup.2]
        by_cases hacc : changeAccepted focus base p v
        · rw [if_pos hacc, if_pos hacc]
        · rw [if_neg hacc, if_neg hacc]
          exact applyOneChange_lookup_ne focus base variant v1 q v0 p hqp happ

theorem generateConfigVariants_forms (base : ConfigDoc) (focus : String) (g : ℚ)
    (hg : lookupStr base.environment "grid_size" = some g) :
    ∀ pcs : List (List (String × ℚ)),
      ∃ vs, generateConfigVariants base pcs focus = some vs ∧
        vs.length = pcs.length ∧
        ∀ i pc, pcs.get? i = some pc →
          ∃ variant, vs.get? i = some variant ∧
            applyChanges focus base base pc = some variant := by
  intro pcs
  induction pcs with
  | nil =>
    refine ⟨[], rfl, rfl, ?_⟩
    intro i pc h
    simp [List.get?] at h
  | cons pc rest ih =>
    obtain ⟨w, hw⟩ := applyChanges_some focus base g hg pc base
    obtain ⟨vs, hvs, hlen, hidx⟩ := ih
    refine ⟨w :: vs, ?_, by simp [hlen], ?_⟩
    · simp [generateConfigVariants, hw, hvs]
    · intro i pc2 h
      cases i with
      | zero =>
        injection h with h2; subst h2
        exact ⟨w, rfl, hw⟩
      | succ n => exact hidx n pc2 h

/-! ### Helper lemmas: parameter validation against the spec's bounds -/

theorem validate_two_bounds (key : String) (lo hi value : ℚ) (cfg : ConfigDoc)
    (hlk : lookupStr PARAMETER_BOUNDS key = some (some lo, some hi))
    (hne : key ≠ "n_traps") :
    (validateParameter key value cfg).map Prod.fst =
      some (decide (lo ≤ value ∧ value ≤ hi)) := by
  simp only [validateParameter, hlk]
  split_ifs with h1 h2 <;> simp_all

theorem validate_n_traps (value : ℚ) (cfg : ConfigDoc) (g : ℚ)
    (hg : lookupStr cfg.environment "grid_size" = some g) :
    (validateParameter "n_traps" value cfg).map Prod.fst =
      some (decide (0 ≤ value ∧ value ≤ g)) := by
  have hlk : lookupStr PARAMETER_BOUNDS "n_traps" = some (some 0, none) := rfl
  simp only [validateParameter, hlk, hg]
  split_ifs with h1 h2 <;> simp_all

theorem validate_seed (value : ℚ) (cfg : ConfigDoc) :
    (validateParameter "seed" value cfg).map Prod.fst = some true := by
  have hlk : lookupStr PARAMETER_BOUNDS "seed" = some (none, none) := rfl
  simp only [validateParameter, hlk]
  split_ifs <;> simp_all

theorem validate_unknown (key : String) (value : ℚ) (cfg : ConfigDoc)
    (h : lookupStr PARAMETER_BOUNDS key = none) :
    validateParameter key value cfg = some (false, "Unknown parameter '" ++ key ++ "'") := by
  simp only [validateParameter, h]

theorem validateParameter_fst (key : String) (value : ℚ) (cfg : ConfigDoc) (g : ℚ)
    (hg : lookupStr cfg.environment "grid_size" = some g) :
    (validateParameter key value cfg).map Prod.fst =
      some (specParameterValid key value g) := by
  by_cases k1 : key = "grid_size"
  · subst k1
    have hs : specParameterValid "grid_size" value g = decide (1 ≤ value ∧ value ≤ 10) := rfl
    rw [hs]; exact validate_two_bounds _ 1 10 value cfg rfl (by decide)
  by_cases k2 : key = "n_traps"
  · subst k2
    have hs : specParameterValid "n_traps" value g = decide (0 ≤ value ∧ value ≤ g) := rfl
    rw [hs]; exact validate_n_traps value cfg g hg
  by_cases k3 : key = "move_penalty"
  · subst k3
    have hs : specParameterValid "move_penalty" value g = decide (-1 ≤ value ∧ value ≤ 0) := rfl
    rw [hs]; exact validate_two_bounds _ (-1) 0 value cfg rfl (by decide)
  by_cases k4 : key = "trap_penalty"
  · subst k4
    have hs : specParameterValid "trap_penalty" value g = decide (-10 ≤ value ∧ value ≤ 0) := rfl
    rw [hs]; exact validate_two_bounds _ (-10) 0 value cfg rfl (by decide)
  by_cases k5 : key = "goal_reward"
  · subst k5
    have hs : specParameterValid "goal_reward" value g = decide (1/10 ≤ value ∧ value ≤ 10) := rfl
    rw [hs]; exact validate_two_bounds _ (1/10) 10 value cfg rfl (by decide)
  by_cases k6 : key = "learning_rate"
  · subst k6
    have hs : specParameterValid "learning_rate" value g = decide (1/100 ≤ value ∧ value ≤ 1) := rfl
    rw [hs]; exact validate_two_bounds _ (1/100) 1 value cfg rfl (by decide)
  by_cases k7 : key = "gamma"
  · subst k7
    have hs : specParameterValid "gamma" value g = decide (1/10 ≤ value ∧ value ≤ 99/100) := rfl
    rw [hs]; exact validate_two_bounds _ (1/10) (99/100) value cfg rfl (by decide)
  by_cases k8 : key = "epsilon_start"
  · subst k8
    have hs : specParameterValid "epsilon_start" value g = decide (1/10 ≤ value ∧ value ≤ 1) := rfl
    rw [hs]; exact validate_two_bounds _ (1/10) 1 value cfg rfl (by decide)
  by_cases k9 : key = "epsilon_min"
  · subst k9
    have hs : specParameterValid "epsilon_min" value g = decide (1/100 ≤ value ∧ value ≤ 1/2) := rfl
    rw [hs]; exact validate_two_bounds _ (1/100) (1/2) value cfg rfl (by decide)
  by_cases k10 : key = "epsilon_decay"
  · subst k10
    have hs : specParameterValid "epsilon_decay" value g =
        decide (9/10 ≤ value ∧ value ≤ 999/1000) := rfl
    rw [hs]; exact validate_two_bounds _ (9/10) (999/1000) value cfg rfl (by decide)
  by_cases k11 : key = "episodes"
  · subst k11
    have hs : specParameterValid "episodes" value g = decide (50 ≤ value ∧ value ≤ 1000) := rfl
    rw [hs]; exact validate_two_bounds _ 50 1000 value cfg rfl (by decide)
  by_cases k12 : key = "max_steps_per_episode"
  · subst k12
    have hs : specParameterValid "max_steps_per_episode" value g =
        decide (50 ≤ value ∧ value ≤ 500) := rfl
    rw [hs]; exact validate_two_bounds _ 50 500 value cfg rfl (by decide)
  by_cases k13 : key = "seed"
  · subst k13
    have hs : specParameterValid "seed" value g = true := rfl
    rw [hs]; exact validate_seed value cfg
  · have hlk : lookupStr PARAMETER_BOUNDS key = none := by
      simp only [PARAMETER_BOUNDS, lookupStr]
      rw [if_neg k1, if_neg k2, if_neg k3, if_neg k4, if_neg k5, if_neg k6, if_neg k7,
        if_neg k8, if_neg k9, if_neg k10, if_neg k11, if_neg k12, if_neg k13]
    have hs : specParameterValid key value g = false := by
      simp only [specParameterValid]
      rw [if_neg k1, if_neg k2, if_neg k3, if_neg k4, if_neg k5, if_neg k6, if_neg k7,
        if_neg k8, if_neg k9, if_neg k10, if_neg k11, if_neg k12, if_neg k13]
    rw [hs, validate_unknown key value cfg hlk]
    rfl

/-! ### Helper lemmas: the promotion gate -/

theorem validateAgentCode_iff (v : ValidationEnv) :
    validateAgentCode v = true ↔
      (v.loadOk = true ∧ v.hasAgentClass = true ∧ v.hasSelectAction = true ∧
        v.hasLearn = true ∧ v.hasDecayEpsilon = true ∧ -999 < v.demoAvgReturn) := by
  obtain ⟨l, a, s, le, d, q⟩ := v
  cases l <;> cases a <;> cases s <;> cases le <;> cases d <;>
    simp [validateAgentCode]

theorem saveBestAgent_spec (store : AgentStore) (codes : List String) (i : Int)
    (v : ValidationEnv) (content : String)
    (hfile : store.agentFile = some content)
    (hi : 0 ≤ i) (hlen : i.toNat < codes.length) :
    (saveBestAgent store codes i v).2 = validateAgentCode v ∧
    (saveBestAgent store codes i v).1.history = store.history ++ [content] ∧
    (validateAgentCode v = true →
      (saveBestAgent store codes i v).1.agentFile = pyListGet codes i) ∧
    (validateAgentCode v = false →
      (saveBestAgent store codes i v).1.agentFile = some content) := by
  have hne : i ≠ -1 := by omega
  obtain ⟨c, hc⟩ : ∃ c, codes[i.toNat]? = some c :=
    ⟨codes.get ⟨i.toNat, hlen⟩, by simp⟩
  have hget : pyListGet codes i = some c := by
    simp [pyListGet, hi, hc]
  have hbackup : (backupCurrentAgent store).1 =
      { store with history := store.history ++ [content] } := by
    simp [backupCurrentAgent, hfile]
  by_cases hv : validateAgentCode v
  · simp [saveBestAgent, hne, hget, hc, hv, hbackup]
  · simp only [Bool.not_eq_true] at hv
    simp [saveBestAgent, hne, hget, hc, hv, hbackup, restoreLatestBackup]

theorem saveBestAgent_index_error (store : AgentStore) (codes : List String) (i : Int)
    (v : ValidationEnv) (content : String)
    (hfile : store.agentFile = some content) (hi : 0 ≤ i)
    (hnone : pyListGet codes i = none) :
    saveBestAgent store codes i v = (⟨some content, store.history ++ [content]⟩, false) := by
  have hne : i ≠ -1 := by omega
  have hbackup : (backupCurrentAgent store).1 =
      { store with history := store.history ++ [content] } := by
    simp [backupCurrentAgent, hfile]
  simp [saveBestAgent, hne, hbackup, hnone, restoreLatestBackup]

/-! ### The claims -/

/-- C1: in `test_multiple_agents` the running best, initialised to the
baseline at index `-1`, is updated to candidate `i` exactly when the
candidate's `avg_return` exceeds the current best's `avg_return * (1 + 0.1)`;
in particular a baseline of `-4.00` is displaced by a candidate scoring
`-4.30` (a strictly worse score), since `-4.30 > -4.00 * 1.10 = -4.40`. -/
theorem C1_agent_track_promotion_rule :
    (∀ (b : Metrics), testMultipleAgents b [] = (-1, b, [])) ∧
    (∀ (st : SelState) (i : Nat) (m : Metrics),
      ((agentStep st i (some m)).bestIndex, (agentStep st i (some m)).bestMetrics) =
        (if m.avg_return > st.bestMetrics.avg_return * (1 + agentImprovementThreshold)
          then ((i : Int), m) else (st.bestIndex, st.bestMetrics))) ∧
    testMultipleAgents ⟨-4, 0, "Original"⟩ [some ⟨-43/10, 1/2, "Candidate 1"⟩] =
      (0, ⟨-43/10, 1/2, "Candidate 1"⟩, [0]) ∧
    ((-43 : ℚ)/10 < -4) := by
  refine ⟨?_, ?_, ?_, by norm_num⟩
  · intro b
    simp [testMultipleAgents, agentLoop]
  · intro st i m
    by_cases h : m.avg_return > st.bestMetrics.avg_return * (1 + agentImprovementThreshold) <;>
      simp [agentStep, h]
  · simp only [testMultipleAgents, agentLoop, agentStep, agentImprovementThreshold]
    norm_num

/-- C2: in `test_multiple_configs` the running best, initialised to the
baseline at index `-1`, is updated to variant `i` exactly when the variant's
`avg_return` exceeds the current best's `avg_return + 0.05` (an absolute
margin; on the reachable states the best's score is always above the
sentinel, so the source's sentinel skip never masks the rule); with a
baseline of `1.00`, a variant scoring `1.04` is not selected and a variant
scoring `1.06` is. -/
theorem C2_config_track_promotion_rule :
    (∀ (b : Metrics), -999 < b.avg_return → testMultipleConfigs b [] = (-1, b, [])) ∧
    (∀ (st : SelState) (i : Nat) (m : Metrics), -999 < st.bestMetrics.avg_return →
      ((configStep st i (some m)).bestIndex, (configStep st i (some m)).bestMetrics) =
        (if m.avg_return > st.bestMetrics.avg_return + configImprovementThreshold
          then ((i : Int), m) else (st.bestIndex, st.bestMetrics))) ∧
    (∀ (b : Metrics) (outs : List (Option Metrics)), -999 < b.avg_return →
      -999 < (testMultipleConfigs b outs).2.1.avg_return) ∧
    testMultipleConfigs ⟨1, 0, "Original"⟩
        [some ⟨26/25, 1/2, "Variant 1"⟩, some ⟨53/50, 1/2, "Variant 2"⟩] =
      (1, ⟨53/50, 1/2, "Variant 2"⟩, [0, 1]) ∧
    testMultipleConfigs ⟨1, 0, "Original"⟩ [some ⟨26/25, 1/2, "Variant 1"⟩] =
      (-1, ⟨1, 0, "Original"⟩, [0]) := by
  refine ⟨?_, ?_, ?_, ?_, ?_⟩
  · intro b hb
    simp [testMultipleConfigs, configLoop, not_le.mpr hb]
  · intro st i m hb
    by_cases h1 : m.avg_return ≤ -999
    · have h2 : ¬ m.avg_return > st.bestMetrics.avg_return + configImprovementThreshold := by
        simp only [configImprovementThreshold]
        push_neg
        linarith
      simp [configStep, h1, h2]
    · by_cases h2 : m.avg_return > st.bestMetrics.avg_return + configImprovementThreshold <;>
        simp [configStep, h1, h2]
  · intro b outs hb
    simp only [testMultipleConfigs, not_le.mpr hb, if_neg (not_le.mpr hb)]
    exact configLoop_best_lt outs ⟨b, -1, []⟩ 0 hb
  · simp only [testMultipleConfigs, configLoop, configStep, configImprovementThreshold]
    norm_num
  · simp only [testMultipleConfigs, configLoop, configStep, configImprovementThreshold]
    norm_num

/-- C2 witness: the promotion step applied at the concrete baseline `1.00`
and variant `1.06`. -/
theorem C2_config_track_promotion_rule_witness :
    ((configStep ⟨⟨1, 0, "Original"⟩, -1, []⟩ 0 (some ⟨53/50, 1/2, "Variant 2"⟩)).bestIndex,
      (configStep ⟨⟨1, 0, "Original"⟩, -1, []⟩ 0 (some ⟨53/50, 1/2, "Variant 2"⟩)).bestMetrics) =
      (if (53/50 : ℚ) > 1 + configImprovementThreshold
        then ((0 : Int), ⟨53/50, 1/2, "Variant 2"⟩) else (-1, ⟨1, 0, "Original"⟩)) := by
  exact C2_config_track_promotion_rule.2.1 ⟨⟨1, 0, "Original"⟩, -1, []⟩ 0
    ⟨53/50, 1/2, "Variant 2"⟩ (by norm_num)

/-- C3 counterexample: the claim fails at concrete inputs.  With stdout
`"RESULTS: avg_return=5.0, success_rate=abc"` no line parses into two
floats (the second field is unparseable), yet the returned `avg_return` is
`5`, not the sentinel `-999` — the source assigns `avg_return` before
parsing `success_rate`, so a half-parsed line leaks through.  And on a
timeout the returned label is the unchanged test name `"T"`, which does not
note the timeout. -/
theorem C3_executor_counterexample :
    ((pySplit "\n" "RESULTS: avg_return=5.0, success_rate=abc").all
        fun l => (lineSrParts l).isNone) = true ∧
    (executeTestScript
        (.completed "RESULTS: avg_return=5.0, success_rate=abc" 1) "T").result.avg_return = 5 ∧
    ((5 : ℚ) = -999 → False) ∧
    (executeTestScript .timedOut "T").result.test_name = "T" ∧
    containsSub "timed out" "T" = false := by
    refine ⟨by decide, ?_, by norm_num, rfl, by decide⟩
    have h : parseScan (pySplit "\n" "RESULTS: avg_return=5.0, success_rate=abc") none =
        (some (false, 5, 0, 1), none) := by decide
    simp [executeTestScript, parseTestOutput, h, ratOfParts]

/-- C3 (amended): `_execute_test_script` is total over process outcomes.  On
timeout it returns exactly the sentinel metrics with the caller's test name
unchanged as label, printing a message that notes the timeout; on any other
exception it returns the sentinel with the test name unchanged; and when no
stdout line starting with `RESULTS:` has an `avg_return` field that parses
as a float, the returned metrics are exactly the sentinel
`{avg_return := -999, success_rate := 0}`.  (A line whose first field parses
but whose second does not overwrites `avg_return` without the sentinel.) -/
theorem C3_executor_normalization_amended :
    (∀ name : String, executeTestScript .timedOut name =
      ⟨⟨-999, 0, name⟩, ["❌ " ++ name ++ " test timed out"], true⟩) ∧
    (∀ name : String, ∃ pre, "❌ " ++ name ++ " test timed out" = pre ++ "timed out") ∧
    (∀ (msg name : String), executeTestScript (.raised msg) name =
      ⟨⟨-999, 0, name⟩, ["❌ Error running " ++ name ++ " test: " ++ msg], true⟩) ∧
    (∀ (stdout : String) (code : Int) (name : String),
      ((pySplit "\n" stdout).all fun l => (lineAvgParts l).isNone) = true →
      (executeTestScript (.completed stdout code) name).result = ⟨-999, 0, name⟩) := by
  refine ⟨fun name => rfl, ?_, fun msg name => rfl, ?_⟩
  · intro name
    refine ⟨"❌ " ++ name ++ " test ", ?_⟩
    have h : (" test " : String) ++ "timed out" = " test timed out" := rfl
    simp only [String.append_assoc]
    rw [h]
  · intro stdout code name h
    simp [executeTestScript, parseTestOutput, parseScan_no_avg _ _ h]

/-- C3 witness: the normalization applied to a concrete stdout in which no
`RESULTS:` line has a parseable `avg_return` field. -/
theorem C3_executor_normalization_amended_witness :
    (executeTestScript
        (.completed "hello\nRESULTS:nospace\nRESULTS: avg_return=x, success_rate=0.5" 1)
        "T").result = ⟨-999, 0, "T"⟩ := by
  exact C3_executor_normalization_amended.2.2.2
    "hello\nRESULTS:nospace\nRESULTS: avg_return=x, success_rate=0.5" 1 "T" (by decide)

/-- C4 counterexample: with a failing baseline (`avg_return = -999`) the
agent-logic track accepts a candidate that itself scores the sentinel
`-999`: the relative rule compares `-999 > -999 * 1.1 = -1098.9`, which
holds, so `best_index` becomes `0` even though the candidate is not strictly
better than the baseline. -/
theorem C4_sentinel_candidate_counterexample :
    testMultipleAgents ⟨-999, 0, "Original"⟩ [some ⟨-999, 0, "Candidate 1"⟩] =
      (0, ⟨-999, 0, "Candidate 1"⟩, [0]) ∧ ¬ ((-999 : ℚ) < -999) := by
  constructor
  · simp only [testMultipleAgents, agentLoop, agentStep, agentImprovementThreshold]
    norm_num
  · norm_num

/-- C4 (amended): (a) as claimed, the configuration track returns
`(-1, baseline)` immediately, with no variant evaluated, whenever the
baseline scores `avg_return ≤ -999`; (b) corrected for the agent-logic
track: it does not special-case a failing baseline but applies the relative
formula, under which any candidate scoring at least `-999` — including one
scoring exactly the sentinel — displaces a baseline scoring at most `-999`,
so a sentinel-scoring candidate does become the best. -/
theorem C4_failing_baseline_amended :
    (∀ (b : Metrics) (outs : List (Option Metrics)), b.avg_return ≤ -999 →
      testMultipleConfigs b outs = (-1, b, [])) ∧
    (∀ (b m : Metrics), b.avg_return ≤ -999 → -999 ≤ m.avg_return →
      (testMultipleAgents b [some m]).1 = 0 ∧ (testMultipleAgents b [some m]).2.1 = m) := by
  constructor
  · intro b outs h
    simp [testMultipleConfigs, h]
  · intro b m hb hm
    have h : m.avg_return > b.avg_return * (1 + agentImprovementThreshold) := by
      simp only [agentImprovementThreshold]
      nlinarith
    simp [testMultipleAgents, agentLoop, agentStep, h]

/-- C4 witness: the amended behaviour at concrete inputs — a `-999`
baseline aborts the configuration track, and on the agent track a `-999`
baseline is displaced by a `-999` candidate. -/
theorem C4_failing_baseline_amended_witness :
    testMultipleConfigs ⟨-999, 0, "Original"⟩ [some ⟨5, 1, "Variant 1"⟩] =
      (-1, ⟨-999, 0, "Original"⟩, []) ∧
    (testMultipleAgents ⟨-999, 0, "Original"⟩ [some ⟨-999, 0, "Candidate A"⟩]).1 = 0 ∧
    (testMultipleAgents ⟨-999, 0, "Original"⟩ [some ⟨-999, 0, "Candidate A"⟩]).2.1 =
      ⟨-999, 0, "Candidate A"⟩ := by
  refine ⟨?_, ?_⟩
  · exact C4_failing_baseline_amended.1 ⟨-999, 0, "Original"⟩ [some ⟨5, 1, "Variant 1"⟩]
      (by norm_num)
  · exact C4_failing_baseline_amended.2 ⟨-999, 0, "Original"⟩ ⟨-999, 0, "Candidate A"⟩
      (by norm_num) (by norm_num)

/-- C5: a failure while evaluating candidate `i` skips only that candidate:
on both tracks the list of evaluated indices is exactly the indices of the
non-exception outcomes, independent of earlier failures, and in the concrete
3-candidate scenario where candidate #2 crashes, candidates #1 and #3 are
both evaluated and #3 is returned as the winner. -/
theorem C5_non_blocking_failure :
    (∀ (b : Metrics) (outs : List (Option Metrics)),
      (testMultipleAgents b outs).2.2 = evaluatedFrom 0 outs) ∧
    (∀ (b : Metrics) (outs : List (Option Metrics)), -999 < b.avg_return →
      (testMultipleConfigs b outs).2.2 = evaluatedFrom 0 outs) ∧
    testMultipleAgents ⟨0, 0, "Original"⟩
        [some ⟨0, 0, "Candidate 1"⟩, none, some ⟨10, 1, "Candidate 3"⟩] =
      (2, ⟨10, 1, "Candidate 3"⟩, [0, 2]) := by
  refine ⟨?_, ?_, ?_⟩
  · intro b outs
    simp [testMultipleAgents, agentLoop_evaluated]
  · intro b outs hb
    simp [testMultipleConfigs, not_le.mpr hb, configLoop_evaluated]
  · simp only [testMultipleAgents, agentLoop, agentStep, agentImprovementThreshold]
    norm_num

/-- C5 witness: the configuration-track conjunct applied at a concrete
baseline and outcome list with a crash in the middle. -/
theorem C5_non_blocking_failure_witness :
    (testMultipleConfigs ⟨1, 0, "Original"⟩
      [some ⟨2, 1, "Variant 1"⟩, none, some ⟨3, 1, "Variant 3"⟩]).2.2 = [0, 2] := by
  exact C5_non_blocking_failure.2.1 ⟨1, 0, "Original"⟩
    [some ⟨2, 1, "Variant 1"⟩, none, some ⟨3, 1, "Variant 3"⟩] (by norm_num)

/-- C6: `save_best_agent` with a winning index `i ≥ 0` (in range) first
backs up the live agent file, then overwrites it, and returns `True` exactly
when `validate_agent_code` passes — which holds iff the module loads, the
`Agent` class exists exposing `select_action`, `learn` and `decay_epsilon`,
and the one-episode demo run scores above the sentinel; on a failed
validation, or on an exception such as an out-of-range index, it restores
the most recent backup, leaving the live file byte-identical to its
pre-call content, and returns `False`. -/
theorem C6_promotion_gate_rollback :
    (∀ (store : AgentStore) (codes : List String) (i : Int) (v : ValidationEnv)
        (content : String),
      store.agentFile = some content → 0 ≤ i → i.toNat < codes.length →
      (saveBestAgent store codes i v).2 = validateAgentCode v ∧
      (saveBestAgent store codes i v).1.history = store.history ++ [content] ∧
      (validateAgentCode v = true →
        (saveBestAgent store codes i v).1.agentFile = pyListGet codes i) ∧
      (validateAgentCode v = false →
        (saveBestAgent store codes i v).1.agentFile = some content)) ∧
    (∀ (store : AgentStore) (codes : List String) (i : Int) (v : ValidationEnv)
        (content : String),
      store.agentFile = some content → 0 ≤ i → pyListGet codes i = none →
      saveBestAgent store codes i v =
        (⟨some content, store.history ++ [content]⟩, false)) ∧
    (∀ v : ValidationEnv, validateAgentCode v = true ↔
      (v.loadOk = true ∧ v.hasAgentClass = true ∧ v.hasSelectAction = true ∧
        v.hasLearn = true ∧ v.hasDecayEpsilon = true ∧ -999 < v.demoAvgReturn)) := by
  exact ⟨saveBestAgent_spec, saveBestAgent_index_error, validateAgentCode_iff⟩

/-- C6 witness: a concrete promotion round — live file `"baseline agent
code"`, one candidate, winning index `0`, all validation checks passing. -/
theorem C6_promotion_gate_rollback_witness :
    (saveBestAgent sampleStore ["candidate agent code"] 0 sampleValidation).2 =
      validateAgentCode sampleValidation ∧
    (saveBestAgent sampleStore ["candidate agent code"] 0 sampleValidation).1.history =
      sampleStore.history ++ ["baseline agent code"] ∧
    (validateAgentCode sampleValidation = true →
      (saveBestAgent sampleStore ["candidate agent code"] 0 sampleValidation).1.agentFile =
        pyListGet ["candidate agent code"] 0) ∧
    (validateAgentCode sampleValidation = false →
      (saveBestAgent sampleStore ["candidate agent code"] 0 sampleValidation).1.agentFile =
        some "baseline agent code") := by
  exact C6_promotion_gate_rollback.1 sampleStore ["candidate agent code"] 0
    sampleValidation "baseline agent code" rfl (by norm_num) (by norm_num)

/-- C7: the generated test program is a pure function of the candidate, the
configuration, the episode count and the working directory, and its text
contains `random.seed(42)` and `np.random.seed(42)` before the episode loop
`for ep in range(n):` — every run of the same candidate executes the same
seeded program, which is what makes repeated evaluations reproducible. -/
theorem C7_seeded_determinism :
    ∀ (cfg : Option ConfigDoc) (af : Option String) (n : Nat) (cwd : String),
      ∃ pre mid1 mid2 post,
        generateTestScript cfg af n cwd =
          pre ++ "random.seed(42)" ++ mid1 ++ "np.random.seed(42)" ++ mid2 ++
            ("for ep in range(" ++ Nat.repr n ++ "):") ++ post := by
  intro cfg af n cwd
  refine ⟨scriptHead cwd ++ configSetupBlock cfg ++ "\n" ++ agentImportBlock af ++
    scriptPreSeed, scriptSeedSep, scriptPreLoop, scriptTail, ?_⟩
  simp only [generateTestScript, scriptLoopHead, String.append_assoc]

/-- C8: the ephemeral test file is deleted on every exit path of
`_execute_test_script`, and after a `test_multiple_agents` round the scratch
directory — whatever it held before the round and whatever residue the
spawned interpreters left — contains no `candidate_*.py` file and no
`__pycache__` entry. -/
theorem C8_scoped_cleanup :
    (∀ (outcome : ProcOutcome) (name : String),
      (executeTestScript outcome name).tempFileDeleted = true) ∧
    (∀ (initial extra : List String) (n : Nat),
      ((scratchAfterRound initial n extra).all
        fun f => !(isCandidateTempFile f) && !(f = "__pycache__" : Bool)) = true) := by
  constructor
  · intro outcome name
    cases outcome <;> rfl
  · intro initial extra n
    simp only [scratchAfterRound, cleanupTempAgents, List.all_eq_true]
    intro f hf
    exact (List.mem_filter.mp hf).2

/-- C9: `validate_parameter` returns `valid = True` exactly when the key is
in the bounds table and the value lies within the spec's bounds for it
(`grid_size ∈ [1,10]`, `n_traps ∈ [0, grid_size]` with the dynamic upper
bound read from the configuration, `move_penalty ∈ [-1,0]`,
`trap_penalty ∈ [-10,0]`, `goal_reward ∈ [0.1,10]`,
`learning_rate ∈ [0.01,1]`, `gamma ∈ [0.1,0.99]`,
`epsilon_start ∈ [0.1,1]`, `epsilon_min ∈ [0.01,0.5]`,
`epsilon_decay ∈ [0.9,0.999]`, `episodes ∈ [50,1000]`,
`max_steps_per_episode ∈ [50,500]`, `seed` unbounded); an unknown key is
rejected with an `Unknown parameter` message. -/
theorem C9_parameter_bounds :
    (∀ (key : String) (value : ℚ) (cfg : ConfigDoc) (g : ℚ),
      lookupStr cfg.environment "grid_size" = some g →
      (validateParameter key value cfg).map Prod.fst =
        some (specParameterValid key value g)) ∧
    (∀ (key : String) (value : ℚ) (cfg : ConfigDoc),
      lookupStr PARAMETER_BOUNDS key = none →
      validateParameter key value cfg =
        some (false, "Unknown parameter '" ++ key ++ "'")) := by
  exact ⟨validateParameter_fst, validate_unknown⟩

/-- C9 witness: the equivalence applied at concrete keys — `n_traps = 3` on
a grid of size 5, and the unknown key `"foo"`. -/
theorem C9_parameter_bounds_witness :
    (validateParameter "n_traps" 3 sampleGridConfig).map Prod.fst =
      some (specParameterValid "n_traps" 3 5) ∧
    validateParameter "foo" 1 sampleGridConfig =
      some (false, "Unknown parameter '" ++ "foo" ++ "'") := by
  constructor
  · exact C9_parameter_bounds.1 "n_traps" 3 sampleGridConfig 5 (by decide)
  · exact C9_parameter_bounds.2 "foo" 1 sampleGridConfig (by decide)

/-- C10: for a base configuration carrying a `grid_size` and any list of N
parameter-change mappings (with distinct keys per mapping, as a Python dict
has), `generate_config_variants` returns exactly N variants; within one
mapping, a change that is rejected (outside the focus area, out of bounds,
or unknown) leaves only that parameter at its base value — the variant's
value at a changed parameter is the new value exactly when the change is
accepted, every unchanged parameter keeps its base value, and the variant is
still included in the round. -/
theorem C10_variant_generation (base : ConfigDoc) (g : ℚ)
    (pcs : List (List (String × ℚ))) (focus : String)
    (hg : lookupStr base.environment "grid_size" = some g) :
    ∃ vs, generateConfigVariants base pcs focus = some vs ∧
      vs.length = pcs.length ∧
      ∀ i pc, pcs.get? i = some pc → (pc.map Prod.fst).Nodup →
        ∃ variant, vs.get? i = some variant ∧
          (∀ p v, (p, v) ∈ pc →
            lookupParamValue variant p =
              if changeAccepted focus base p v then some v
              else lookupParamValue base p) ∧
          (∀ p, (∀ v, (p, v) ∉ pc) →
            lookupParamValue variant p = lookupParamValue base p) := by
  obtain ⟨vs, hvs, hlen, hidx⟩ := generateConfigVariants_forms base focus g hg pcs
  refine ⟨vs, hvs, hlen, ?_⟩
  intro i pc hpc hnodup
  obtain ⟨variant, hvar, happ⟩ := hidx i pc hpc
  refine ⟨variant, hvar, ?_, ?_⟩
  · intro p v hmem
    exact applyChanges_lookup_mem focus base pc base variant p v happ hmem hnodup
  · intro p hnotin
    exact applyChanges_lookup_notin focus base pc base variant p happ hnotin

/-- C10 witness: one mapping asking for `learning_rate = 2` (out of bounds,
rejected) and `gamma = 0.5` (accepted) under focus area `"agent"` still
yields exactly one variant. -/
theorem C10_variant_generation_witness :
    ∃ vs, generateConfigVariants sampleGridConfig
        [[("learning_rate", 2), ("gamma", 1/2)]] "agent" = some vs ∧
      vs.length = 1 := by
  obtain ⟨vs, h1, h2, _⟩ := C10_variant_generation sampleGridConfig 5
    [[("learning_rate", 2), ("gamma", 1/2)]] "agent" (by decide)
  exact ⟨vs, h1, h2⟩
